import Mathlib

/-!
Verification of the RTTrail backend's authentication / account-management
core against its specification.

The Python source under `backend/app` is shallowly embedded:
pure helpers become Lean functions, the database becomes an explicit
`DBState` record threaded through the endpoint functions, `datetime`
values become `Nat` timestamps (only ordering comparisons are performed
on them in the modelled code), and a raised `HTTPException` becomes the
`Except` error case (for endpoints that mutate the database the pair
`(Except _ _, DBState)` is returned, the state component being the
database as left behind by the aborted or completed handler).
Library collaborators that are not part of the repository (the JWT
codec, the password hasher, pydantic validation, token generation) are
taken as parameters of the functions that use them.
-/

namespace RTTrail

/-- AccountType from `app/core/users/type_users.py`: a string enum with
members `user`, `moderator`, `admin`. -/
inductive AccountType where
  | user
  | moderator
  | admin
deriving DecidableEq, Repr

/-- Privilege rank realising the total order user < moderator < admin
used by the spec to describe the account-type gate. -/
def AccountType.rank : AccountType → Nat
  | .user => 0
  | .moderator => 1
  | .admin => 2

/-- Scope values: `app/types/scopes_type.py` is not among the sources;
`ScopeType` is a `str` enum and its members compare as their string
values (the code tests `scope in token_data.scopes.split(" ")`), so
scopes are embedded as strings. -/
abbrev ScopeType := String

/-- TokenData from `app/core/login/schemas_login.py`: the decoded JWT
claim set. `datetime` claims are embedded as `Nat`. -/
structure TokenData where
  sub : String
  iss : Option String := none
  aud : Option String := none
  cid : Option String := none
  iat : Option Nat := none
  nonce : Option String := none
  scopes : String := ""
deriving DecidableEq, Repr

/-- User from `app/core/users/models_users.py` (table `user`). The UUID
primary key is embedded as a string. -/
structure User where
  id : String
  email : String
  password_hash : String
  is_active : Bool
  account_type : AccountType
  name : String
  created_on : Option Nat := none
deriving DecidableEq, Repr

/-- HTTPException as raised by the handlers: a status code, a detail
string and optional extra headers. -/
structure HTTPException where
  status_code : Nat
  detail : String
  headers : List (String × String) := []
deriving DecidableEq, Repr

/-! Embeddings of the Python string primitives used by the modelled
code, written by structural recursion on the character list so that
they evaluate inside the kernel (`String.splitOn` and `String.trim`
are defined by well-founded recursion and do not reduce). -/

/-- Embedding of Python `str.split(" ")` on the character list: split
at every single space, without collapsing adjacent separators, so that
`"".split(" ") == [""]` and `"A  B".split(" ") == ["A", "", "B"]`. -/
def split_space_chars : List Char → List (List Char)
  | [] => [[]]
  | c :: cs =>
    if c = ' ' then
      [] :: split_space_chars cs
    else
      match split_space_chars cs with
      | [] => [[c]]
      | w :: ws => (c :: w) :: ws

/-- Embedding of Python `str.split(" ")`. -/
def split_space (s : String) : List String :=
  (split_space_chars s.data).map (fun w => String.mk w)

/-- Embedding of Python `str.strip()`: drop leading and trailing
whitespace characters. -/
def strip (s : String) : String :=
  String.mk
    ((((s.data.dropWhile Char.isWhitespace).reverse).dropWhile
        Char.isWhitespace).reverse)

/-! Embedding of `app/utils/auth/auth_utils.py`. -/

/-- Inner loop of `get_user_from_token_with_scopes`:
`scope_set_present` starts at `True` and is and-ed with
`scope in token_data.scopes.split(" ")` for each scope of the set. -/
def scope_set_present (scope_set : List ScopeType) (token_scopes : String) : Bool :=
  scope_set.foldl (fun acc scope => acc && (split_space token_scopes).contains scope) true

/-- Outer loop of `get_user_from_token_with_scopes`: `access_granted`
is `True` when `scopes == []`, otherwise it starts at `False` and is
or-ed with `scope_set_present` for each scope set. -/
def access_granted (scopes : List (List ScopeType)) (token_data : TokenData) : Bool :=
  if scopes = [] then
    true
  else
    scopes.foldl
      (fun acc scope_set => acc || scope_set_present scope_set token_data.scopes)
      false

/-- Lookup of `cruds_users.get_user_by_id`: first row of the `user`
table whose id matches. -/
def get_user_by_id (users : List User) (user_id : String) : Option User :=
  users.find? (fun u => u.id = user_id)

/-- Detail string of the 403 raised by `get_user_from_token_with_scopes`
(the f-string listing the required scope sets). -/
def scopes_detail (scopes : List (List ScopeType)) : String :=
  "Unauthorized, token does not contain at least one of the following scope_set "
    ++ toString scopes

/-- Embedding of `auth_utils.get_user_from_token_with_scopes`: check the
scope policy, then resolve `token_data.sub` to a user row. -/
def get_user_from_token_with_scopes (scopes : List (List ScopeType))
    (users : List User) (token_data : TokenData) : Except HTTPException User :=
  if access_granted scopes token_data then
    match get_user_by_id users token_data.sub with
    | some user => .ok user
    | none => .error { status_code := 404, detail := "User not found" }
  else
    .error { status_code := 403, detail := scopes_detail scopes }

/-! Embedding of `auth_utils.get_token_data`. The JWT codec (`jwt.decode`)
and pydantic validation are library collaborators, taken as parameters:
`decode` classifies the raw token string into a payload or one of the
three exception kinds of PyJWT caught there, and `validate` is the
`TokenData(**payload)` construction, returning `none` on a pydantic
`ValidationError`. -/

/-- Raw decoded JWT payload: a claim map, embedded as an association
list of claim names to values. -/
abbrev JwtPayload := List (String × String)

/-- Outcome of `jwt.decode` against the server secret: a payload, or
one of the exceptions caught by `get_token_data`. -/
inductive JwtDecodeResult where
  | payload (p : JwtPayload)
  | expiredSignatureError
  | decodeError
  | invalidTokenError
deriving DecidableEq, Repr

/-- Embedding of `auth_utils.get_token_data`: decode the token, build
`TokenData` from the payload, and map each exception kind to the 403
`HTTPException` the source raises for it. -/
def get_token_data (decode : String → JwtDecodeResult)
    (validate : JwtPayload → Option TokenData) (token : String) :
    Except HTTPException TokenData :=
  match decode token with
  | .payload p =>
    match validate p with
    | some token_data => .ok token_data
    | none =>
      .error { status_code := 403, detail := "Could not validate credentials" }
  | .expiredSignatureError =>
    .error { status_code := 403, detail := "Token has expired" }
  | .decodeError =>
    .error { status_code := 403, detail := "Could not validate credentials" }
  | .invalidTokenError =>
    .error { status_code := 403, detail := "Could not validate credentials" }

/-! Embedding of the account-type gate from `app/dependencies.py`. -/

/-- Inner check of the `is_user` dependency factory in
`app/dependencies.py`, applied to the user resolved from the token.
`account_type = account_type or AccountType.user` defaults a `None`
requirement to `user` (enum members are truthy non-empty strings). -/
def is_user (required : Option AccountType) (user : User) :
    Except HTTPException User :=
  let account_type := required.getD AccountType.user
  if user.account_type = AccountType.admin then
    .ok user
  else if account_type = AccountType.admin then
    .error { status_code := 403,
             detail := "Unauthorized, user does not have admin permissions" }
  else if user.account_type = AccountType.moderator then
    .ok user
  else if account_type = AccountType.moderator then
    .error { status_code := 403,
             detail := "Unauthorized, user does not have moderator permissions" }
  else
    .ok user

/-! Embedding of the login endpoint from
`app/core/login/endpoints_login.py`. -/

/-- Lookup of `cruds_users.get_user_by_email`: first row of the `user`
table whose email matches. -/
def get_user_by_email (users : List User) (email : String) : Option User :=
  users.find? (fun u => u.email = email)

/-- Modelled from the spec: `authenticate_user` lives in
`app/core/utils/security.py`, which is not among the sources. Per the
spec it looks up the Account by email, fails closed when absent,
verifies the password against `password_hash` (the hash comparison
`verify` is a library collaborator, taken as a parameter), returns
`none` on mismatch, and returns the Account on match regardless of
`is_active`. -/
def authenticate_user (verify : String → String → Bool) (users : List User)
    (email password : String) : Option User :=
  match get_user_by_email users email with
  | none => none
  | some user => if verify password user.password_hash then some user else none

/-- Response body of `/login/access-token`
(`schemas_login.AccessToken`). -/
structure AccessToken where
  access_token : String
  token_type : String
deriving DecidableEq, Repr

/-- The scope put in freshly issued tokens
(`ScopeType.auth`; `app/types/scopes_type.py` is not among the sources,
so the member's string value is abstracted as a constant). -/
def authScopeValue : String := "auth"

/-- Embedding of the `/login/access-token` endpoint
`login_for_access_token`: authenticate, reject inactive users, then
mint a token for the user id (`create_access_token` is a library-backed
collaborator outside the sources, taken as the parameter
`create_access_token`). -/
def login_for_access_token (verify : String → String → Bool)
    (create_access_token : TokenData → String) (users : List User)
    (username password : String) : Except HTTPException AccessToken :=
  match authenticate_user verify users username password with
  | none =>
    .error { status_code := 401, detail := "Incorrect login or password",
             headers := [("WWW-Authenticate", "Bearer")] }
  | some user =>
    if !user.is_active then
      .error { status_code := 400, detail := "Inactive user" }
    else
      .ok { access_token :=
              create_access_token { sub := user.id, scopes := authScopeValue },
            token_type := "bearer" }

/-! Database state and the CRUD helpers from
`app/core/users/cruds_users.py` used by the modelled endpoints. -/

/-- UserUnconfirmed from `app/core/users/models_users.py` (table
`user_unconfirmed`). `password_hash` is optional because
`endpoints_users.create_user` constructs the row without one. -/
structure UserUnconfirmed where
  id : String
  email : String
  password_hash : Option String := none
  activation_token : String
  created_on : Nat
  expire_on : Nat
deriving DecidableEq, Repr

/-- UserRecoverRequest from `app/core/users/models_users.py` (table
`user_recover_request`). -/
structure UserRecoverRequest where
  email : String
  user_id : String
  reset_token : String
  created_on : Nat
  expire_on : Nat
deriving DecidableEq, Repr

/-- Database state: the three tables touched by the modelled
endpoints. -/
structure DBState where
  users : List User
  unconfirmed_users : List UserUnconfirmed
  recover_requests : List UserRecoverRequest
deriving DecidableEq, Repr

/-- Lookup of `cruds_users.get_unconfirmed_user_by_activation_token`:
first `user_unconfirmed` row whose activation token matches. -/
def get_unconfirmed_user_by_activation_token (db : DBState)
    (activation_token : String) : Option UserUnconfirmed :=
  db.unconfirmed_users.find? (fun u => u.activation_token = activation_token)

/-- Write of `cruds_users.create_user`: add a row to the `user`
table. -/
def create_user_row (db : DBState) (user : User) : DBState :=
  { db with users := db.users ++ [user] }

/-- Write of `cruds_users.create_unconfirmed_user`: add a row to the
`user_unconfirmed` table. -/
def create_unconfirmed_user (db : DBState) (user_unconfirmed : UserUnconfirmed) :
    DBState :=
  { db with unconfirmed_users := db.unconfirmed_users ++ [user_unconfirmed] }

/-- Write of `cruds_users.delete_unconfirmed_user_by_email`: delete all
`user_unconfirmed` rows with the given email. -/
def delete_unconfirmed_user_by_email (db : DBState) (email : String) : DBState :=
  { db with unconfirmed_users :=
      db.unconfirmed_users.filter (fun u => u.email ≠ email) }

/-- Lookup of `cruds_users.get_recover_request_by_reset_token`: first
`user_recover_request` row whose reset token matches. -/
def get_recover_request_by_reset_token (db : DBState) (reset_token : String) :
    Option UserRecoverRequest :=
  db.recover_requests.find? (fun r => r.reset_token = reset_token)

/-- Write of `cruds_users.create_user_recover_request`: add a row to
the `user_recover_request` table. -/
def create_user_recover_request (db : DBState)
    (recover_request : UserRecoverRequest) : DBState :=
  { db with recover_requests := db.recover_requests ++ [recover_request] }

/-- Write of `cruds_users.delete_recover_request_by_email`: delete all
`user_recover_request` rows with the given email. -/
def delete_recover_request_by_email (db : DBState) (email : String) : DBState :=
  { db with recover_requests :=
      db.recover_requests.filter (fun r => r.email ≠ email) }

/-- Write of `cruds_users.update_user_password_by_id`: set
`password_hash` on the `user` rows with the given id. -/
def update_user_password_by_id (db : DBState) (user_id : String)
    (new_password_hash : String) : DBState :=
  { db with users := db.users.map (fun u =>
      if u.id = user_id then { u with password_hash := new_password_hash } else u) }

/-- Uniform success response `standard_responses.Result`
(`app/types/standard_responses.py` is not among the sources; the spec
calls it a uniform success response, and the endpoints construct it
either with no argument or as `Result(success=True)`). -/
structure Result where
  success : Bool
deriving DecidableEq, Repr

/-- Modelled from the spec: the no-argument construction
`standard_responses.Result()` of the uniform success response. -/
def Result.default : Result := { success := true }

/-! Embedding of the account-lifecycle endpoints from
`app/core/users/endpoints_users.py`. Each endpoint returns the raised
`HTTPException` or its response, paired with the database state as
left behind by the handler (a raise aborts before any write, so error
paths return the state unchanged). The current clock reading
`datetime.now(UTC)` is the parameter `now`, and the password hasher
`security.get_password_hash` (from the out-of-tree
`app/core/utils/security.py`) is the parameter `get_password_hash`. -/

/-- Request body of `/users/activate`
(`schemas_users.CoreUserActivateRequest`): name, activation token and
the password chosen by the user. -/
structure UserActivateRequest where
  name : String
  activation_token : String
  password : String
deriving DecidableEq, Repr

/-- Embedding of the `/users/activate` endpoint `activate_user`: find
the unconfirmed row by activation token (404 if none), reject expired
tokens (400), reject emails that already have a confirmed account
(400), then create the confirmed `User` row reusing the unconfirmed
row's id and delete every unconfirmed row with that email. -/
def activate_user (get_password_hash : String → String) (now : Nat)
    (user : UserActivateRequest) (db : DBState) :
    Except HTTPException Result × DBState :=
  match get_unconfirmed_user_by_activation_token db user.activation_token with
  | none =>
    (.error { status_code := 404, detail := "Invalid activation token" }, db)
  | some unconfirmed_user =>
    if unconfirmed_user.expire_on < now then
      (.error { status_code := 400, detail := "Expired activation token" }, db)
    else
      match get_user_by_email db.users unconfirmed_user.email with
      | some _ =>
        (.error { status_code := 400,
                  detail := "The account with the email " ++ unconfirmed_user.email
                    ++ " is already confirmed" }, db)
      | none =>
        let confirmed_user : User :=
          { id := unconfirmed_user.id
            email := unconfirmed_user.email
            account_type := AccountType.user
            password_hash := get_password_hash user.password
            name := user.name
            created_on := some now
            is_active := true }
        let db := create_user_row db confirmed_user
        let db := delete_unconfirmed_user_by_email db unconfirmed_user.email
        (.ok Result.default, db)

/-- Request body of `/users/reset-password`
(`schemas_users.ResetPasswordRequest`). -/
structure ResetPasswordRequest where
  reset_token : String
  new_password : String
deriving DecidableEq, Repr

/-- Embedding of the `/users/reset-password` endpoint `reset_password`:
find the recovery row by reset token (404 if none), reject expired
tokens (400), then update the password hash of the account identified
by the row's `user_id` and delete every recovery row with the row's
email. -/
def reset_password (get_password_hash : String → String) (now : Nat)
    (reset_password_request : ResetPasswordRequest) (db : DBState) :
    Except HTTPException Result × DBState :=
  match get_recover_request_by_reset_token db reset_password_request.reset_token with
  | none => (.error { status_code := 404, detail := "Invalid reset token" }, db)
  | some recover_request =>
    if recover_request.expire_on < now then
      (.error { status_code := 400, detail := "Expired reset token" }, db)
    else
      let new_password_hash := get_password_hash reset_password_request.new_password
      let db := update_user_password_by_id db recover_request.user_id
        new_password_hash
      let db := delete_recover_request_by_email db recover_request.email
      (.ok Result.default, db)

/-- Embedding of the `/users/recover` endpoint `recover_user`: when the
email matches a confirmed account, create a `UserRecoverRequest` row
carrying a fresh reset token (`security.generate_token` is the
parameter `generate_token`, the reset-token TTL in hours the parameter
`expire_hours`); otherwise only send mail / log. Either way the
response is the uniform `standard_responses.Result()`. -/
def recover_user (generate_token : String) (now expire_hours : Nat)
    (email : String) (db : DBState) : Result × DBState :=
  match get_user_by_email db.users email with
  | none => (Result.default, db)
  | some db_user =>
    let recover_request : UserRecoverRequest :=
      { email := email
        user_id := db_user.id
        reset_token := generate_token
        created_on := now
        expire_on := now + expire_hours }
    (Result.default, create_user_recover_request db recover_request)

/-- Error `UserWithEmailAlreadyExistError` raised by the `create_user`
helper (`app/types/exceptions.py` is not among the sources; the helper
raises it when a confirmed account already holds the email). -/
structure UserWithEmailAlreadyExistError where
  email : String
deriving DecidableEq, Repr

/-- Embedding of the `create_user` helper of
`app/core/users/endpoints_users.py`: raise when a confirmed account
already holds the email, otherwise insert an unconfirmed row with a
fresh activation token (`new_id` is the generated `uuid.uuid4()`,
`activation_token` the generated `security.generate_token(nbytes=16)`,
`expire_hours` the activation-token TTL); the row is constructed
without a `password_hash`. -/
def create_user_helper (new_id activation_token : String)
    (now expire_hours : Nat) (email : String) (db : DBState) :
    Except UserWithEmailAlreadyExistError Unit × DBState :=
  match get_user_by_email db.users email with
  | some _ => (.error { email := email }, db)
  | none =>
    let user_unconfirmed : UserUnconfirmed :=
      { id := new_id
        email := email
        activation_token := activation_token
        created_on := now
        expire_on := now + expire_hours }
    (.ok (), create_unconfirmed_user db user_unconfirmed)

/-- Embedding of the `/users/create` endpoint `create_user_by_user`:
when a confirmed account already holds the email, fail silently with
the uniform success response (optionally mailing the owner); otherwise
run the `create_user` helper and return the same uniform success
response. -/
def create_user_by_user (new_id activation_token : String)
    (now expire_hours : Nat) (email : String) (db : DBState) :
    Except UserWithEmailAlreadyExistError Result × DBState :=
  match get_user_by_email db.users email with
  | some _ => (.ok { success := true }, db)
  | none =>
    match create_user_helper new_id activation_token now expire_hours email db with
    | (.error e, db) => (.error e, db)
    | (.ok (), db) => (.ok { success := true }, db)

/-! Embedding of `app/utils/validators.py`. -/

/-- Embedding of `validators.password_validator`: raise `ValueError`
(the `Except` error case) when the input has fewer than 8 characters,
otherwise return the input stripped of leading and trailing
whitespace. -/
def password_validator (password : String) : Except String String :=
  if password.length < 8 then
    .error "The password must be at least 8 characters long"
  else
    .ok (strip password)

/-! Helper lemmas. -/

/-- Folding a conjunction over a list from an accumulator equals the
accumulator and-ed with `List.all`. -/
theorem foldl_and_eq {α : Type} (p : α → Bool) :
    ∀ (l : List α) (b : Bool), l.foldl (fun acc x => acc && p x) b = (b && l.all p)
  | [], b => by simp
  | x :: xs, b => by
    simp [List.foldl, foldl_and_eq p xs, Bool.and_assoc]

/-- Folding a disjunction over a list from an accumulator equals the
accumulator or-ed with `List.any`. -/
theorem foldl_or_eq {α : Type} (q : α → Bool) :
    ∀ (l : List α) (b : Bool), l.foldl (fun acc x => acc || q x) b = (b || l.any q)
  | [], b => by simp
  | x :: xs, b => by
    simp [List.foldl, foldl_or_eq q xs, Bool.or_assoc]

/-- The inner AND loop holds exactly when every scope of the set
occurs in the token's split scopes string. -/
theorem scope_set_present_iff (scope_set : List ScopeType) (token_scopes : String) :
    scope_set_present scope_set token_scopes = true ↔
      ∀ s ∈ scope_set, s ∈ split_space token_scopes := by
  unfold scope_set_present
  rw [foldl_and_eq]
  simp

/-- The scope gate of `get_user_from_token_with_scopes` grants exactly
when the policy is empty or some scope set is fully contained in the
token's split scopes string. -/
theorem access_granted_iff (scopes : List (List ScopeType)) (token_data : TokenData) :
    access_granted scopes token_data = true ↔
      (scopes = [] ∨
        ∃ scope_set ∈ scopes, ∀ s ∈ scope_set, s ∈ split_space token_data.scopes) := by
  unfold access_granted
  by_cases h : scopes = []
  · simp [h]
  · rw [if_neg h, foldl_or_eq, Bool.false_or, List.any_eq_true]
    simp only [scope_set_present_iff]
    exact ⟨fun hx => Or.inr hx, fun hx => hx.resolve_left h⟩

/-- C1: `get_user_from_token_with_scopes` grants access (that is,
proceeds past the scope gate to user resolution, returning the user or
a 404 instead of the scope 403) exactly when the outer policy list is
empty or at least one inner scope set is fully contained in the split
of the token's space-delimited scopes string; the policy
`[[A,B],[C]]` grants a token carrying both `A` and `B`, grants a token
carrying `C` alone, and denies a token carrying only `A`. -/
theorem scope_policy_or_of_ands :
    ∀ (scopes : List (List ScopeType)) (users : List User) (token_data : TokenData),
      (((∃ u, get_user_from_token_with_scopes scopes users token_data = .ok u) ∨
          get_user_from_token_with_scopes scopes users token_data =
            .error { status_code := 404, detail := "User not found" }) ↔
        (scopes = [] ∨
          ∃ scope_set ∈ scopes,
            ∀ s ∈ scope_set, s ∈ split_space token_data.scopes))
      ∧ access_granted [["A", "B"], ["C"]] { sub := "u", scopes := "A B" } = true
      ∧ access_granted [["A", "B"], ["C"]] { sub := "u", scopes := "C" } = true
      ∧ access_granted [["A", "B"], ["C"]] { sub := "u", scopes := "A" } = false := by
  refine fun scopes users token_data => ⟨?_, by decide, by decide, by decide⟩
  rw [← access_granted_iff]
  unfold get_user_from_token_with_scopes
  by_cases h : access_granted scopes token_data
  · rw [if_pos h]
    simp only [h, iff_true]
    cases hu : get_user_by_id users token_data.sub with
    | some u => exact Or.inl ⟨u, by simp⟩
    | none => exact Or.inr (by simp)
  · rw [if_neg h]
    simp only [h, Bool.false_eq_true, iff_false]
    rintro (⟨u, hu⟩ | he)
    · exact Except.noConfusion hu
    · rw [Except.error.injEq] at he
      have h403 : (403 : Nat) = 404 := congrArg HTTPException.status_code he
      exact absurd h403 (by decide)

/-- C9: a scope policy containing an empty inner AND list grants access
for every token payload, because the inner conjunction over an empty
scope set is vacuously true; in particular the non-empty policy `[[]]`
always grants, so the empty outer list is not the only always-granting
policy shape. -/
theorem empty_scope_set_grants :
    ∀ (scopes : List (List ScopeType)) (token_data : TokenData),
      [] ∈ scopes → access_granted scopes token_data = true := by
  intro scopes token_data h
  rw [access_granted_iff]
  exact Or.inr ⟨[], h, by simp⟩

/-- Witness for `empty_scope_set_grants`, at the policy `[[]]` and a
token carrying unrelated scopes. -/
theorem empty_scope_set_grants_witness :
    access_granted [[]] { sub := "u", scopes := "X Y" } = true :=
  empty_scope_set_grants [[]] { sub := "u", scopes := "X Y" } (by decide)

/-- C2: `get_token_data` either returns the decoded `TokenData` or
fails with an HTTP 403 error, and the failure kind is classified as
the source's `except` clauses do: an expired signature yields detail
"Token has expired", a decode failure, any other invalid-token error,
and a payload failing schema validation all yield detail
"Could not validate credentials". -/
theorem get_token_data_classifies :
    ∀ (decode : String → JwtDecodeResult)
      (validate : JwtPayload → Option TokenData) (token : String),
      ((∃ token_data, get_token_data decode validate token = .ok token_data) ∨
        (∃ d, get_token_data decode validate token =
            .error { status_code := 403, detail := d } ∧
          (d = "Token has expired" ∨ d = "Could not validate credentials")))
      ∧ (decode token = .expiredSignatureError →
          get_token_data decode validate token =
            .error { status_code := 403, detail := "Token has expired" })
      ∧ (decode token = .decodeError →
          get_token_data decode validate token =
            .error { status_code := 403, detail := "Could not validate credentials" })
      ∧ (decode token = .invalidTokenError →
          get_token_data decode validate token =
            .error { status_code := 403, detail := "Could not validate credentials" })
      ∧ (∀ p, decode token = .payload p → validate p = none →
          get_token_data decode validate token =
            .error { status_code := 403, detail := "Could not validate credentials" })
      ∧ (∀ p token_data, decode token = .payload p → validate p = some token_data →
          get_token_data decode validate token = .ok token_data) := by
  intro decode validate token
  refine ⟨?_, ?_, ?_, ?_, ?_, ?_⟩
  · cases h : decode token with
    | payload p =>
      cases hv : validate p with
      | some token_data =>
        exact Or.inl ⟨token_data, by simp [get_token_data, h, hv]⟩
      | none =>
        exact Or.inr ⟨"Could not validate credentials",
          by simp [get_token_data, h, hv]⟩
    | expiredSignatureError =>
      exact Or.inr ⟨"Token has expired", by simp [get_token_data, h]⟩
    | decodeError =>
      exact Or.inr ⟨"Could not validate credentials", by simp [get_token_data, h]⟩
    | invalidTokenError =>
      exact Or.inr ⟨"Could not validate credentials", by simp [get_token_data, h]⟩
  · intro h
    simp [get_token_data, h]
  · intro h
    simp [get_token_data, h]
  · intro h
    simp [get_token_data, h]
  · intro p h hv
    simp [get_token_data, h, hv]
  · intro p token_data h hv
    simp [get_token_data, h, hv]

/-- Witness for `get_token_data_classifies`: a decode reporting an
expired signature yields the 403 with detail "Token has expired". -/
theorem get_token_data_classifies_witness :
    get_token_data (fun _ => .expiredSignatureError) (fun _ => none) "tok" =
      .error { status_code := 403, detail := "Token has expired" } :=
  (get_token_data_classifies (fun _ => .expiredSignatureError)
    (fun _ => none) "tok").2.1 rfl

/-- C3: the account-type gate `is_user` admits the resolved user
exactly when the user's account type is at least the required type in
the order user < moderator < admin, and a mismatch yields an HTTP 403
whose message names the missing tier (admin or moderator). -/
theorem is_user_account_type_gate :
    ∀ (required : Option AccountType) (user : User),
      is_user required user =
        (if (required.getD AccountType.user).rank ≤ user.account_type.rank then
          .ok user
        else if required.getD AccountType.user = AccountType.admin then
          .error { status_code := 403,
                   detail := "Unauthorized, user does not have admin permissions" }
        else
          .error { status_code := 403,
                   detail := "Unauthorized, user does not have moderator permissions" }) := by
  intro required user
  rcases user with ⟨i, e, p, ia, acct, n, c⟩
  rcases required with _ | req
  · cases acct <;> rfl
  · cases req <;> cases acct <;> rfl

/-- C4: the access-token endpoint fails with 401 and a
`WWW-Authenticate: Bearer` header when authentication returns no
account, fails with 400 and detail "Inactive user" when the
authenticated account is inactive (a check performed by the endpoint
after authentication, distinct from wrong credentials), and on success
returns the minted token string with token type "bearer". -/
theorem login_for_access_token_spec :
    ∀ (verify : String → String → Bool) (create_access_token : TokenData → String)
      (users : List User) (username password : String),
      (authenticate_user verify users username password = none →
        login_for_access_token verify create_access_token users username password =
          .error { status_code := 401, detail := "Incorrect login or password",
                   headers := [("WWW-Authenticate", "Bearer")] })
      ∧ (∀ user, authenticate_user verify users username password = some user →
          user.is_active = false →
          login_for_access_token verify create_access_token users username password =
            .error { status_code := 400, detail := "Inactive user" })
      ∧ (∀ user, authenticate_user verify users username password = some user →
          user.is_active = true →
          login_for_access_token verify create_access_token users username password =
            .ok { access_token :=
                    create_access_token { sub := user.id, scopes := authScopeValue },
                  token_type := "bearer" }) := by
  intro verify create_access_token users username password
  refine ⟨?_, ?_, ?_⟩
  · intro h
    simp [login_for_access_token, h]
  · intro user h hact
    simp [login_for_access_token, h, hact]
  · intro user h hact
    simp [login_for_access_token, h, hact]

/-- Witness for `login_for_access_token_spec`: against an empty user
table authentication fails and the endpoint returns the 401 with the
`WWW-Authenticate: Bearer` header. -/
theorem login_for_access_token_spec_witness :
    login_for_access_token (fun _ _ => true) (fun _ => "T") [] "e@x.com" "pw" =
      .error { status_code := 401, detail := "Incorrect login or password",
               headers := [("WWW-Authenticate", "Bearer")] } :=
  (login_for_access_token_spec (fun _ _ => true) (fun _ => "T")
    [] "e@x.com" "pw").1 rfl

/-- C5: when the activation token matches an unconfirmed row whose
`expire_on` has not passed and whose email has no confirmed account,
activation succeeds, exactly one new `User` row is appended whose id
and email are those of the unconfirmed row, every unconfirmed row
sharing that email is deleted, and the recovery table is untouched. -/
theorem activate_user_success :
    ∀ (get_password_hash : String → String) (now : Nat)
      (user : UserActivateRequest) (db : DBState) (row : UserUnconfirmed),
      get_unconfirmed_user_by_activation_token db user.activation_token = some row →
      ¬ row.expire_on < now →
      get_user_by_email db.users row.email = none →
      ∃ (res : Result) (db2 : DBState) (u : User),
        activate_user get_password_hash now user db = (.ok res, db2) ∧
        u.id = row.id ∧ u.email = row.email ∧
        db2.users = db.users ++ [u] ∧
        db2.unconfirmed_users =
          db.unconfirmed_users.filter (fun x => x.email ≠ row.email) ∧
        db2.recover_requests = db.recover_requests := by
  intro get_password_hash now user db row h1 h2 h3
  refine ⟨Result.default,
    delete_unconfirmed_user_by_email
      (create_user_row db
        { id := row.id
          email := row.email
          account_type := AccountType.user
          password_hash := get_password_hash user.password
          name := user.name
          created_on := some now
          is_active := true })
      row.email,
    { id := row.id
      email := row.email
      account_type := AccountType.user
      password_hash := get_password_hash user.password
      name := user.name
      created_on := some now
      is_active := true }, ?_, rfl, rfl, ?_, ?_, ?_⟩
  · simp [activate_user, h1, h2, h3]
  · simp [create_user_row, delete_unconfirmed_user_by_email]
  · simp [create_user_row, delete_unconfirmed_user_by_email]
  · simp [create_user_row, delete_unconfirmed_user_by_email]

/-- Witness for `activate_user_success`: a database holding one
unconfirmed row for `a@x.com` and no confirmed account, activated
before expiry. -/
theorem activate_user_success_witness :
    ∃ (res : Result) (db2 : DBState) (u : User),
      activate_user (fun s => s) 50
          { name := "N", activation_token := "tok", password := "pw123456" }
          { users := []
            unconfirmed_users :=
              [{ id := "id1", email := "a@x.com", activation_token := "tok",
                 created_on := 0, expire_on := 100 }]
            recover_requests := [] } = (.ok res, db2) ∧
      u.id = "id1" ∧ u.email = "a@x.com" ∧
      db2.users = [] ++ [u] ∧
      db2.unconfirmed_users =
        ([{ id := "id1", email := "a@x.com", activation_token := "tok",
            created_on := 0, expire_on := 100 }] :
          List UserUnconfirmed).filter (fun x => x.email ≠ "a@x.com") ∧
      db2.recover_requests = [] :=
  activate_user_success (fun s => s) 50
    { name := "N", activation_token := "tok", password := "pw123456" }
    { users := []
      unconfirmed_users :=
        [{ id := "id1", email := "a@x.com", activation_token := "tok",
           created_on := 0, expire_on := 100 }]
      recover_requests := [] }
    { id := "id1", email := "a@x.com", activation_token := "tok",
      created_on := 0, expire_on := 100 }
    rfl (by decide) rfl

/-- C6: activation fails with 404 when no unconfirmed row matches the
token, with 400 when the matching row is expired, and with 400 when a
confirmed account with the same email already exists; in each failure
case the returned database state is the input state unchanged (in
particular the expired unconfirmed row is left untouched). -/
theorem activate_user_failure :
    ∀ (get_password_hash : String → String) (now : Nat)
      (user : UserActivateRequest) (db : DBState),
      (get_unconfirmed_user_by_activation_token db user.activation_token = none →
        activate_user get_password_hash now user db =
          (.error { status_code := 404, detail := "Invalid activation token" }, db))
      ∧ (∀ row,
          get_unconfirmed_user_by_activation_token db user.activation_token =
            some row →
          row.expire_on < now →
          activate_user get_password_hash now user db =
            (.error { status_code := 400, detail := "Expired activation token" }, db))
      ∧ (∀ row u,
          get_unconfirmed_user_by_activation_token db user.activation_token =
            some row →
          ¬ row.expire_on < now →
          get_user_by_email db.users row.email = some u →
          activate_user get_password_hash now user db =
            (.error { status_code := 400,
                      detail := "The account with the email " ++ row.email
                        ++ " is already confirmed" }, db)) := by
  intro get_password_hash now user db
  refine ⟨?_, ?_, ?_⟩
  · intro h
    simp [activate_user, h]
  · intro row h1 h2
    simp [activate_user, h1, h2]
  · intro row u h1 h2 h3
    simp [activate_user, h1, h2, h3]

/-- Witness for `activate_user_failure`: an expired unconfirmed row is
rejected with the 400 and the database (the expired row included) is
returned unchanged. -/
theorem activate_user_failure_witness :
    activate_user (fun s => s) 200
        { name := "N", activation_token := "tok", password := "pw123456" }
        { users := []
          unconfirmed_users :=
            [{ id := "id1", email := "a@x.com", activation_token := "tok",
               created_on := 0, expire_on := 100 }]
          recover_requests := [] } =
      (.error { status_code := 400, detail := "Expired activation token" },
        { users := []
          unconfirmed_users :=
            [{ id := "id1", email := "a@x.com", activation_token := "tok",
               created_on := 0, expire_on := 100 }]
          recover_requests := [] }) :=
  (activate_user_failure (fun s => s) 200
    { name := "N", activation_token := "tok", password := "pw123456" }
    { users := []
      unconfirmed_users :=
        [{ id := "id1", email := "a@x.com", activation_token := "tok",
           created_on := 0, expire_on := 100 }]
      recover_requests := [] }).2.1
    { id := "id1", email := "a@x.com", activation_token := "tok",
      created_on := 0, expire_on := 100 }
    rfl (by decide)

/-- C7: when the reset token matches an unexpired recovery row, the
reset endpoint updates the password hash of the user rows whose id is
the row's `user_id` to the hash of the new password and deletes every
recovery row sharing the row's email; an unmatched token fails with
404 and an expired one with 400, leaving the state unchanged. -/
theorem reset_password_spec :
    ∀ (get_password_hash : String → String) (now : Nat)
      (req : ResetPasswordRequest) (db : DBState),
      (∀ row, get_recover_request_by_reset_token db req.reset_token = some row →
        ¬ row.expire_on < now →
        reset_password get_password_hash now req db =
          (.ok Result.default,
            { users := db.users.map (fun u =>
                if u.id = row.user_id then
                  { u with password_hash := get_password_hash req.new_password }
                else u)
              unconfirmed_users := db.unconfirmed_users
              recover_requests :=
                db.recover_requests.filter (fun x => x.email ≠ row.email) }))
      ∧ (get_recover_request_by_reset_token db req.reset_token = none →
          reset_password get_password_hash now req db =
            (.error { status_code := 404, detail := "Invalid reset token" }, db))
      ∧ (∀ row, get_recover_request_by_reset_token db req.reset_token = some row →
          row.expire_on < now →
          reset_password get_password_hash now req db =
            (.error { status_code := 400, detail := "Expired reset token" }, db)) := by
  intro get_password_hash now req db
  refine ⟨?_, ?_, ?_⟩
  · intro row h1 h2
    simp [reset_password, h1, h2, update_user_password_by_id,
      delete_recover_request_by_email]
  · intro h
    simp [reset_password, h]
  · intro row h1 h2
    simp [reset_password, h1, h2]

/-- Witness for `reset_password_spec`: a database with one account and
two recovery rows for its email; the reset updates the account's hash
and removes both rows. -/
theorem reset_password_spec_witness :
    reset_password (fun s => "h:" ++ s) 50
        { reset_token := "rt1", new_password := "newpw123" }
        { users := [{ id := "id1", email := "a@x.com", password_hash := "old",
                      is_active := true, account_type := AccountType.user,
                      name := "N" }]
          unconfirmed_users := []
          recover_requests :=
            [{ email := "a@x.com", user_id := "id1", reset_token := "rt1",
               created_on := 0, expire_on := 100 },
             { email := "a@x.com", user_id := "id1", reset_token := "rt2",
               created_on := 0, expire_on := 100 }] } =
      (.ok Result.default,
        { users := ([{ id := "id1", email := "a@x.com", password_hash := "old",
                       is_active := true, account_type := AccountType.user,
                       name := "N" }] : List User).map (fun u =>
            if u.id = "id1" then { u with password_hash := "h:" ++ "newpw123" }
            else u)
          unconfirmed_users := []
          recover_requests :=
            ([{ email := "a@x.com", user_id := "id1", reset_token := "rt1",
                created_on := 0, expire_on := 100 },
              { email := "a@x.com", user_id := "id1", reset_token := "rt2",
                created_on := 0, expire_on := 100 }] :
              List UserRecoverRequest).filter (fun x => x.email ≠ "a@x.com") }) :=
  (reset_password_spec (fun s => "h:" ++ s) 50
    { reset_token := "rt1", new_password := "newpw123" }
    { users := [{ id := "id1", email := "a@x.com", password_hash := "old",
                  is_active := true, account_type := AccountType.user,
                  name := "N" }]
      unconfirmed_users := []
      recover_requests :=
        [{ email := "a@x.com", user_id := "id1", reset_token := "rt1",
           created_on := 0, expire_on := 100 },
         { email := "a@x.com", user_id := "id1", reset_token := "rt2",
           created_on := 0, expire_on := 100 }] }).1
    { email := "a@x.com", user_id := "id1", reset_token := "rt1",
      created_on := 0, expire_on := 100 }
    rfl (by decide)

/-- C8: the recovery endpoint and the registration endpoint produce
the same uniform success response on any two database states (in
particular on two states differing only in the existence of a
confirmed account with the email), the registration endpoint never
raises (the helper's already-exists raise is unreachable behind the
endpoint's own check), and a recovery row is created exactly in the
account-exists case. -/
theorem enumeration_uniform_responses :
    ∀ (generate_token new_id activation_token : String)
      (now expire_hours : Nat) (email : String) (db1 db2 : DBState),
      (recover_user generate_token now expire_hours email db1).1 =
        (recover_user generate_token now expire_hours email db2).1
      ∧ (create_user_by_user new_id activation_token now expire_hours email db1).1 =
          (create_user_by_user new_id activation_token now expire_hours email db2).1
      ∧ (create_user_by_user new_id activation_token now expire_hours email db1).1 =
          .ok { success := true }
      ∧ (∀ db : DBState, get_user_by_email db.users email = none →
          ((recover_user generate_token now expire_hours email db).2).recover_requests =
            db.recover_requests)
      ∧ (∀ (db : DBState) (u : User), get_user_by_email db.users email = some u →
          ((recover_user generate_token now expire_hours email db).2).recover_requests =
            db.recover_requests ++
              [{ email := email, user_id := u.id, reset_token := generate_token,
                 created_on := now, expire_on := now + expire_hours }]) := by
  intro generate_token new_id activation_token now expire_hours email db1 db2
  have hrec : ∀ db : DBState,
      (recover_user generate_token now expire_hours email db).1 = Result.default := by
    intro db
    unfold recover_user
    cases get_user_by_email db.users email <;> rfl
  have hcreate : ∀ db : DBState,
      (create_user_by_user new_id activation_token now expire_hours email db).1 =
        .ok { success := true } := by
    intro db
    cases h : get_user_by_email db.users email <;>
      simp [create_user_by_user, create_user_helper, h]
  refine ⟨(hrec db1).trans (hrec db2).symm,
    (hcreate db1).trans (hcreate db2).symm, hcreate db1, ?_, ?_⟩
  · intro db h
    simp [recover_user, h]
  · intro db u h
    simp [recover_user, h, create_user_recover_request]

/-- Witness for `enumeration_uniform_responses`: with no account for
the email, recovery leaves the recovery table unchanged (while still
returning the uniform success response). -/
theorem enumeration_uniform_responses_witness :
    ((recover_user "rt" 0 24 "a@x.com"
        { users := [], unconfirmed_users := [], recover_requests := [] }).2).recover_requests =
      ([] : List UserRecoverRequest) :=
  (enumeration_uniform_responses "rt" "id" "at" 0 24 "a@x.com"
    { users := [], unconfirmed_users := [], recover_requests := [] }
    { users := [], unconfirmed_users := [], recover_requests := [] }).2.2.2.1
    { users := [], unconfirmed_users := [], recover_requests := [] } rfl

/-- C10: `password_validator` raises exactly when its input has fewer
than 8 characters, and otherwise returns the input stripped of leading
and trailing whitespace; because the length check precedes the
stripping, an accepted 8-character input ending in a space yields a
normalized password of fewer than 8 characters. -/
theorem password_validator_spec :
    ∀ password : String,
      ((∃ e, password_validator password = .error e) ↔ password.length < 8)
      ∧ (8 ≤ password.length →
          password_validator password = .ok (strip password))
      ∧ password_validator "abcdefg " = .ok "abcdefg"
      ∧ ("abcdefg" : String).length < 8 := by
  intro password
  refine ⟨?_, ?_, rfl, by decide⟩
  · unfold password_validator
    by_cases h : password.length < 8
    · simp [h]
    · simp [h]
  · intro h
    unfold password_validator
    rw [if_neg (by omega)]

/-- Witness for `password_validator_spec`: a 12-character input is
accepted and returned stripped. -/
theorem password_validator_spec_witness :
    password_validator "longpassword" = .ok (strip "longpassword") :=
  (password_validator_spec "longpassword").2.1 (by decide)

end RTTrail
